import Mathlib

/-!
Verification development for the DAG-configuration core of bigquery-etl
(`bigquery_etl/query_scheduling/dag.py`): a shallow embedding of the
`DagDefaultArgs` and `Dag` value objects, their attrs-style constructor
validation, the `add_tasks` mutation, the `from_dict` configuration parser
and the `to_airflow_dag` render pipeline, together with theorems settling
the specified properties.
-/

namespace BqEtl

/-- A task reference: the DAG core only reads its stable `task_name`. -/
structure Task where
  task_name : String
deriving DecidableEq, Repr

/-- Error taxonomy: Python `ValueError` (validator rejection), `TypeError`
(missing required constructor argument) and `DagParseException`. -/
inductive DagError where
  | valueError (msg : String)
  | typeError (msg : String)
  | parseError (msg : String)
deriving DecidableEq, Repr

/-- `true` exactly on successful results. -/
def exOk {ε α : Type} : Except ε α → Bool
  | Except.ok _ => true
  | Except.error _ => false

/-- `true` exactly when the result is a `DagParseException`. -/
def isParseError {α : Type} : Except DagError α → Bool
  | Except.error (DagError.parseError _) => true
  | _ => false

/-- Modelled from the spec: the shared email predicate of the missing
`query_scheduling.utils` module, specified only as syntactic
local-part@domain shape: exactly one separator with nonempty text on both
sides. -/
def is_email (s : String) : Bool :=
  let cs := s.toList
  !cs.isEmpty && cs.count '@' == 1 && cs.head? != some '@' && cs.getLast? != some '@'

/-- Days of each month, February depending on leap years. -/
def daysInMonth (y m : Nat) : Nat :=
  if m = 2 then (if (y % 4 = 0 ∧ y % 100 ≠ 0) ∨ y % 400 = 0 then 29 else 28)
  else if m = 4 ∨ m = 6 ∨ m = 9 ∨ m = 11 then 30 else 31

/-- Numeric value of a decimal digit character. -/
def digitVal (c : Char) : Nat := c.toNat - 48

/-- Modelled from the spec: the date predicate of the missing
`query_scheduling.utils` module: strict 4-digit-year, 2-digit-month,
2-digit-day format separated by dashes, calendar-valid. -/
def is_date_string (s : String) : Bool :=
  match s.toList with
  | [y1, y2, y3, y4, h1, m1, m2, h2, d1, d2] =>
    y1.isDigit && y2.isDigit && y3.isDigit && y4.isDigit && h1 = '-' &&
    m1.isDigit && m2.isDigit && h2 = '-' && d1.isDigit && d2.isDigit &&
    (let y := ((digitVal y1 * 10 + digitVal y2) * 10 + digitVal y3) * 10 + digitVal y4
     let mo := digitVal m1 * 10 + digitVal m2
     let da := digitVal d1 * 10 + digitVal d2
     decide (1 ≤ mo ∧ mo ≤ 12 ∧ 1 ≤ da ∧ da ≤ daysInMonth y mo))
  | _ => false

/-- Splits a character list into its maximal leading run of digits and the rest. -/
def splitDigits : List Char → List Char × List Char
  | [] => ([], [])
  | c :: rest =>
    if c.isDigit then
      let r := splitDigits rest
      (c :: r.1, r.2)
    else ([], c :: rest)

/-- Tries to consume `digits…u` from the front; on failure consumes nothing. -/
def parseUnit (u : Char) (cs : List Char) : Bool × List Char :=
  match splitDigits cs with
  | (ds, c :: rest) => if !ds.isEmpty && c = u then (true, rest) else (false, cs)
  | (_, []) => (false, cs)

/-- Modelled from the spec: the duration predicate of the missing
`query_scheduling.utils` module: days, hours and minutes parts each
optional but at least one present, in day, hour, minute order, no unit
repeated, nothing else in the string. -/
def is_timedelta_string (s : String) : Bool :=
  let p1 := parseUnit 'd' s.toList
  let p2 := parseUnit 'h' p1.2
  let p3 := parseUnit 'm' p2.2
  (p1.1 || p2.1 || p3.1) && p3.2.isEmpty

/-- Counts maximal nonempty runs of non-whitespace characters; the flag
records whether the previous character was inside such a run. -/
def countFieldsAux : Bool → List Char → Nat
  | _, [] => 0
  | inWord, c :: cs =>
    if c.isWhitespace then countFieldsAux false cs
    else (if inWord then 0 else 1) + countFieldsAux true cs

/-- Number of nonempty whitespace-separated fields of a string. -/
def cronFieldCount (s : String) : Nat :=
  countFieldsAux false s.toList

/-- The named schedule presets listed in the source docstring. -/
def schedulePresets : List String :=
  ["@once", "@hourly", "@daily", "@weekly", "@monthly", "@yearly"]

/-- Modelled from the spec: the schedule-interval predicate of the missing
`query_scheduling.utils` module: a named preset, or a
5-whitespace-separated-field cron expression, or a duration literal. -/
def is_schedule_interval (s : String) : Bool :=
  schedulePresets.contains s || cronFieldCount s == 5 || is_timedelta_string s

/-- `beginsWith p cs` holds when `p` is an initial segment of `cs`. -/
def beginsWith : List Char → List Char → Bool
  | [], _ => true
  | _ :: _, [] => false
  | p :: ps, c :: cs => p == c && beginsWith ps cs

/-- Modelled from the spec and the source's own error message: the DAG-name
predicate of the missing `query_scheduling.utils` module: the name must
start with the literal required namespace marker. -/
def is_valid_dag_name (s : String) : Bool :=
  beginsWith "bqetl_".toList s.toList

/-- Embedding of the `DagDefaultArgs` attrs class: `start_date` is typed
`str` in the source but may hold Python `None`, embedded as `Option`. -/
structure DagDefaultArgs where
  owner : String
  start_date : Option String
  email : List String
  depends_on_past : Bool
  retry_delay : String
  email_on_failure : Bool
  email_on_retry : Bool
  retries : Int
deriving DecidableEq, Repr

/-- attrs `__init__` of `DagDefaultArgs`: each field validator runs in
attribute order; the date check is skipped when the value is `None`. -/
def mkDagDefaultArgs (owner : String) (start_date : Option String) (email : List String)
    (depends_on_past : Bool) (retry_delay : String) (email_on_failure : Bool)
    (email_on_retry : Bool) (retries : Int) : Except DagError DagDefaultArgs :=
  if !is_email owner then
    Except.error (DagError.valueError "Invalid email for DAG owner")
  else if (match start_date with | some v => !is_date_string v | none => false) then
    Except.error (DagError.valueError "Invalid date definition for start_date")
  else if !(email.all is_email) then
    Except.error (DagError.valueError "Invalid email in DAG email")
  else if !is_timedelta_string retry_delay then
    Except.error (DagError.valueError "Invalid timedelta definition for retry_delay")
  else
    Except.ok ⟨owner, start_date, email, depends_on_past, retry_delay,
      email_on_failure, email_on_retry, retries⟩

/-- The Python call signature of `DagDefaultArgs`: `owner` and `start_date`
are required (no attrs default), the remaining six have defaults; a missing
required argument raises `TypeError` before any validator runs. The outer
`Option` marks whether the caller supplied the argument at all. -/
def mkDagDefaultArgsKw (owner : Option String) (start_date : Option (Option String))
    (email : Option (List String)) (depends_on_past : Option Bool)
    (retry_delay : Option String) (email_on_failure : Option Bool)
    (email_on_retry : Option Bool) (retries : Option Int) : Except DagError DagDefaultArgs :=
  match owner, start_date with
  | none, _ => Except.error (DagError.typeError "missing required argument owner")
  | _, none => Except.error (DagError.typeError "missing required argument start_date")
  | some o, some sd =>
    mkDagDefaultArgs o sd (email.getD []) (depends_on_past.getD false)
      (retry_delay.getD "30m") (email_on_failure.getD true)
      (email_on_retry.getD true) (retries.getD 2)

/-- Heterogeneous field value, for the `to_dict` mapping. -/
inductive AttrValue where
  | str (s : String)
  | optStr (s : Option String)
  | strList (l : List String)
  | boolean (b : Bool)
  | int (n : Int)
deriving DecidableEq, Repr

/-- `DagDefaultArgs.to_dict`: returns `self.__dict__`, the plain mapping of
all eight fields in attribute declaration order. -/
def DagDefaultArgs.to_dict (a : DagDefaultArgs) : List (String × AttrValue) :=
  [("owner", AttrValue.str a.owner),
   ("start_date", AttrValue.optStr a.start_date),
   ("email", AttrValue.strList a.email),
   ("depends_on_past", AttrValue.boolean a.depends_on_past),
   ("retry_delay", AttrValue.str a.retry_delay),
   ("email_on_failure", AttrValue.boolean a.email_on_failure),
   ("email_on_retry", AttrValue.boolean a.email_on_retry),
   ("retries", AttrValue.int a.retries)]

/-- Names of the tasks of a DAG, in sequence order. -/
def taskNames (ts : List Task) : List String := ts.map Task.task_name

/-- `Dag.validate_tasks`: the set of task names occurring more than once,
as a deduplicated list (Python builds a `set` from the same comprehension). -/
def duplicateTaskNames (ts : List Task) : List String :=
  ((taskNames ts).filter (fun n => decide (1 < (taskNames ts).count n))).dedup

/-- `Dag.validate_tasks`: raises iff the duplicate-name set is nonempty,
reporting all duplicates in one combined error. -/
def validateTasks (ts : List Task) : Except DagError Unit :=
  if duplicateTaskNames ts = [] then Except.ok ()
  else Except.error (DagError.valueError "Duplicate task names encountered")

/-- Embedding of the `Dag` attrs class. -/
structure Dag where
  name : String
  schedule_interval : String
  default_args : DagDefaultArgs
  tasks : List Task
deriving DecidableEq, Repr

/-- attrs `__init__` of `Dag`: the name, schedule-interval and tasks
validators run in attribute order before the object exists. -/
def mkDag (name schedule_interval : String) (default_args : DagDefaultArgs)
    (tasks : List Task) : Except DagError Dag :=
  if !is_valid_dag_name name then
    Except.error (DagError.valueError "Invalid DAG name")
  else if !is_schedule_interval schedule_interval then
    Except.error (DagError.valueError "Invalid schedule_interval")
  else
    match validateTasks tasks with
    | Except.error e => Except.error e
    | Except.ok _ =>
      Except.ok ⟨name, schedule_interval, default_args, tasks⟩

/-- `Dag.add_tasks`: installs `self.tasks.copy() + tasks` and only then
re-runs the duplicate check; the pair returns the resulting model state and
the raised error, if any. -/
def Dag.add_tasks (d : Dag) (ts : List Task) : Dag × Option DagError :=
  let combined := d.tasks ++ ts
  let d' : Dag := ⟨d.name, d.schedule_interval, d.default_args, combined⟩
  match validateTasks combined with
  | Except.ok _ => (d', none)
  | Except.error e => (d', some e)

/-- Raw `default_args` mapping as fed to the cattr converter: an absent key
means the attrs default is used (or `TypeError` for a required field). -/
structure RawDefaultArgs where
  owner : Option String
  start_date : Option (Option String)
  email : Option (List String)
  depends_on_past : Option Bool
  retry_delay : Option String
  email_on_failure : Option Bool
  email_on_retry : Option Bool
  retries : Option Int
deriving DecidableEq, Repr

/-- Raw DAG body mapping: the value under the single top-level key. The
body may itself contain a `name` entry, which the splat in `from_dict`
merges after the top-level key. -/
structure RawDagBody where
  name : Option String
  schedule_interval : Option String
  default_args : Option RawDefaultArgs
  tasks : Option (List Task)
deriving DecidableEq, Repr

/-- cattr structuring of `default_args` into `DagDefaultArgs`. -/
def structureDefaultArgs (r : RawDefaultArgs) : Except DagError DagDefaultArgs :=
  mkDagDefaultArgsKw r.owner r.start_date r.email r.depends_on_past r.retry_delay
    r.email_on_failure r.email_on_retry r.retries

/-- cattr structuring of the flattened mapping into a `Dag`: required
fields missing raise `TypeError`, present fields are converted and the
attrs constructor (with its validators) runs. -/
def structureDag (nm : String) (body : RawDagBody) : Except DagError Dag :=
  match body.schedule_interval with
  | none => Except.error (DagError.typeError "missing required argument schedule_interval")
  | some si =>
    match body.default_args with
    | none => Except.error (DagError.typeError "missing required argument default_args")
    | some rda =>
      match structureDefaultArgs rda with
      | Except.error e => Except.error e
      | Except.ok da => mkDag nm si da (body.tasks.getD [])

/-- `Dag.from_dict`: demands exactly one top-level key, merges the key as
`name` with the body splatted after it (so a `name` entry in the body wins),
structures the result, and re-raises `TypeError` as `DagParseException`. -/
def Dag.from_dict (d : List (String × RawDagBody)) : Except DagError Dag :=
  if d.length ≠ 1 then
    Except.error (DagError.parseError "Invalid DAG configuration format")
  else
    match d with
    | [(key, body)] =>
      (match structureDag (body.name.getD key) body with
       | Except.error (DagError.typeError msg) => Except.error (DagError.parseError msg)
       | r => r)
    | _ => Except.error (DagError.parseError "Invalid DAG configuration format")

/-- The wiring loop of `to_airflow_dag`: calls the black-box
`with_dependencies` on each task in order, stopping at the first failure;
returns the trace of tasks whose wiring was invoked and the outcome. -/
def wireTasks (wire : Task → Except DagError Unit) : List Task → List Task × Except DagError Unit
  | [] => ([], Except.ok ())
  | t :: ts =>
    match wire t with
    | Except.error e => ([t], Except.error e)
    | Except.ok _ =>
      let r := wireTasks wire ts
      (t :: r.1, r.2)

/-- `Dag.to_airflow_dag`: wires every task with the supplied context, then
renders the template over the model's fields. The template engine and the
task collaborator are external, passed as opaque functions; the first
component is the trace of wiring invocations. -/
def Dag.to_airflow_dag (d : Dag) (wire : Task → Except DagError Unit)
    (render : Dag → String) : List Task × Except DagError String :=
  let r := wireTasks wire d.tasks
  match r.2 with
  | Except.error e => (r.1, Except.error e)
  | Except.ok _ => (r.1, Except.ok (render d))

/-- Concrete valid default args, as `DagDefaultArgs("a@b.com", "2020-01-01")`
would build them. -/
def sampleArgs : DagDefaultArgs :=
  ⟨"a@b.com", some "2020-01-01", [], false, "30m", true, true, 2⟩

/-- Concrete task named `task_a`. -/
def taskA : Task := ⟨"task_a"⟩

/-- Concrete task named `task_b`. -/
def taskB : Task := ⟨"task_b"⟩

/-- Concrete valid DAG holding tasks `[taskA, taskB]`. -/
def dagAB : Dag := ⟨"bqetl_test", "@daily", sampleArgs, [taskA, taskB]⟩

/-- A raw DAG body with every key absent. -/
def emptyBody : RawDagBody := ⟨none, none, none, none⟩

/-- Raw `default_args` mapping of the specification's example config. -/
def exampleRawArgs : RawDefaultArgs :=
  ⟨some "a@b.com", some (some "2020-01-01"), none, none, none, none, none, none⟩

/-- Raw body of the specification's example config. -/
def exampleBody : RawDagBody := ⟨none, some "@daily", some exampleRawArgs, none⟩

/-- The DAG the specification's example config parses to. -/
def exampleDag : Dag :=
  ⟨"bqetl_example", "@daily", ⟨"a@b.com", some "2020-01-01", [], false, "30m", true, true, 2⟩, []⟩

/-- Raw body carrying its own `name` entry, overriding the top-level key. -/
def overrideBody : RawDagBody :=
  ⟨some "bqetl_inner", some "@daily", some exampleRawArgs, none⟩

/-- The DAG `overrideBody` parses to: its name comes from the body. -/
def dagInner : Dag :=
  ⟨"bqetl_inner", "@daily", ⟨"a@b.com", some "2020-01-01", [], false, "30m", true, true, 2⟩, []⟩

/-- A wiring step that fails exactly on `task_b`. -/
def wireFail : Task → Except DagError Unit :=
  fun t =>
    if t.task_name = "task_b" then Except.error (DagError.valueError "wiring failed")
    else Except.ok ()

/-- With a valid owner and defaulted remaining fields, construction succeeds
exactly when the supplied `start_date` is absent (`none`) or a valid date. -/
lemma mkDagDefaultArgs_start_date (sd : Option String) :
    mkDagDefaultArgs "a@b.com" sd [] false "30m" true true 2 =
      (if sd.all is_date_string then
        Except.ok ⟨"a@b.com", sd, [], false, "30m", true, true, 2⟩
      else Except.error (DagError.valueError "Invalid date definition for start_date")) := by
  have he : is_email "a@b.com" = true := rfl
  have ht : is_timedelta_string "30m" = true := rfl
  cases sd with
  | none => rfl
  | some s =>
    simp only [mkDagDefaultArgs, Option.all]
    rcases Bool.eq_false_or_eq_true (is_date_string s) with h | h <;> simp [h, he, ht]

/-- C1 (counterexample): for the valid DAG with tasks `[task_a, task_b]`,
appending `[task_b]` raises the duplicate error, yet the model's task
sequence afterwards is not the prior `[task_a, task_b]`. -/
theorem add_tasks_atomicity_counterexample :
    mkDag "bqetl_test" "@daily" sampleArgs [taskA, taskB] = Except.ok dagAB ∧
    (dagAB.add_tasks [taskB]).2.isSome = true ∧
    (dagAB.add_tasks [taskB]).1.tasks ≠ [taskA, taskB] := by
  refine ⟨rfl, rfl, ?_⟩
  decide

/-- C1 (amended): `add_tasks` installs the combined list before validating:
after the call the task sequence always equals the prior sequence with the
new tasks appended, and the duplicate-name error is raised exactly when the
combined sequence contains a duplicated name; a failed append is not rolled
back to the prior state. -/
theorem add_tasks_installs_before_validation (d : Dag) (ts : List Task) :
    (d.add_tasks ts).1.tasks = d.tasks ++ ts ∧
    ((d.add_tasks ts).2.isSome = true ↔ duplicateTaskNames (d.tasks ++ ts) ≠ []) := by
  unfold Dag.add_tasks validateTasks
  by_cases h : duplicateTaskNames (d.tasks ++ ts) = [] <;> simp [h]

/-- C2 (counterexample): constructing `DagDefaultArgs` with a valid owner
but no `start_date` argument at all fails (Python `TypeError`), so
`start_date` is not optional at the call site. -/
theorem start_date_not_optional_counterexample :
    exOk (mkDagDefaultArgsKw (some "a@b.com") none none none none none none none) = false := by
  rfl

/-- C2 (amended): `start_date` is a required constructor argument —
construction fails when no value is supplied — but the supplied value may
be `None`; when a string is supplied it must satisfy the strict YYYY-MM-DD
predicate or construction fails. -/
theorem start_date_required_but_nullable (sd : Option String) :
    exOk (mkDagDefaultArgsKw (some "a@b.com") none none none none none none none) = false ∧
    exOk (mkDagDefaultArgsKw (some "a@b.com") (some sd) none none none none none none) =
      sd.all is_date_string := by
  refine ⟨rfl, ?_⟩
  show exOk (mkDagDefaultArgs "a@b.com" sd [] false "30m" true true 2) = sd.all is_date_string
  rw [mkDagDefaultArgs_start_date]
  cases h : sd.all is_date_string <;> simp [h, exOk]

/-- C10: explicitly passing `None` as `start_date` succeeds — the date
validator skips `None` — and the resulting instance observably holds
`start_date = None` with all defaults in place. -/
theorem start_date_none_constructible :
    mkDagDefaultArgsKw (some "a@b.com") (some none) none none none none none none =
      Except.ok ⟨"a@b.com", none, [], false, "30m", true, true, 2⟩ := by
  rfl

/-- C4: `from_dict` on a mapping whose top-level key count is not exactly
one raises `DagParseException` and constructs no model. -/
theorem from_dict_rejects_bad_key_count (d : List (String × RawDagBody))
    (h : d.length ≠ 1) : isParseError (Dag.from_dict d) = true := by
  unfold Dag.from_dict
  rw [if_pos h]
  rfl

/-- C4 (witness): a mapping with two top-level keys raises
`DagParseException`. -/
theorem from_dict_rejects_bad_key_count_witness :
    isParseError (Dag.from_dict [("bqetl_a", emptyBody), ("bqetl_b", emptyBody)]) = true :=
  from_dict_rejects_bad_key_count [("bqetl_a", emptyBody), ("bqetl_b", emptyBody)] (by decide)

/-- C3: the tasks validator succeeds exactly when no task name occurs more
than once, and the duplicate set it reports contains exactly the names
whose occurrence count in the sequence exceeds one. -/
theorem validate_tasks_duplicate_set (ts : List Task) :
    (validateTasks ts = Except.ok () ↔ ∀ n : String, (taskNames ts).count n ≤ 1) ∧
    (∀ n : String, n ∈ duplicateTaskNames ts ↔ 1 < (taskNames ts).count n) := by
  have hmem : ∀ n : String, n ∈ duplicateTaskNames ts ↔ 1 < (taskNames ts).count n := by
    intro n
    unfold duplicateTaskNames
    rw [List.mem_dedup, List.mem_filter]
    simp only [decide_eq_true_eq]
    constructor
    · rintro ⟨-, h⟩
      exact h
    · intro h
      exact ⟨List.count_pos_iff.mp (Nat.lt_of_lt_of_le Nat.zero_lt_one (Nat.le_of_lt h)), h⟩
  refine ⟨?_, hmem⟩
  unfold validateTasks
  by_cases h : duplicateTaskNames ts = []
  · simp only [h, if_pos]
    constructor
    · intro _ n
      by_contra hc
      push_neg at hc
      have hn : n ∈ duplicateTaskNames ts := (hmem n).mpr hc
      rw [h] at hn
      exact absurd hn (List.not_mem_nil n)
    · intro _
      trivial
  · rw [if_neg h]
    constructor
    · intro hcontra
      exact absurd hcontra (by simp)
    · intro hall
      cases hl : duplicateTaskNames ts with
      | nil => exact absurd hl h
      | cons n rest =>
        have hn : n ∈ duplicateTaskNames ts := by
          rw [hl]
          exact List.mem_cons_self n rest
        have h1 := (hmem n).mp hn
        have h2 := hall n
        omega

/-- C5: `from_dict` on the specification's example configuration succeeds
and yields the DAG named `bqetl_example`, scheduled `@daily`, with an empty
task sequence. -/
theorem from_dict_example_config :
    Dag.from_dict [("bqetl_example", exampleBody)] = Except.ok exampleDag ∧
    exampleDag.name = "bqetl_example" ∧
    exampleDag.schedule_interval = "@daily" ∧
    exampleDag.tasks = [] := by
  refine ⟨rfl, rfl, rfl, rfl⟩

/-- C6: for every validly constructed `DagDefaultArgs`, `to_dict` exposes
all eight fields under their own names, in declaration order, each bound to
the value held by the instance, with nothing filtered out. -/
theorem to_dict_round_trips_every_field (o : String) (sd : Option String)
    (em : List String) (dp : Bool) (rd : String) (ef er : Bool) (rt : Int)
    (a : DagDefaultArgs) (_valid : mkDagDefaultArgs o sd em dp rd ef er rt = Except.ok a) :
    a.to_dict.map Prod.fst =
      ["owner", "start_date", "email", "depends_on_past", "retry_delay",
       "email_on_failure", "email_on_retry", "retries"] ∧
    a.to_dict.length = 8 ∧
    a.to_dict.lookup "owner" = some (AttrValue.str a.owner) ∧
    a.to_dict.lookup "start_date" = some (AttrValue.optStr a.start_date) ∧
    a.to_dict.lookup "email" = some (AttrValue.strList a.email) ∧
    a.to_dict.lookup "depends_on_past" = some (AttrValue.boolean a.depends_on_past) ∧
    a.to_dict.lookup "retry_delay" = some (AttrValue.str a.retry_delay) ∧
    a.to_dict.lookup "email_on_failure" = some (AttrValue.boolean a.email_on_failure) ∧
    a.to_dict.lookup "email_on_retry" = some (AttrValue.boolean a.email_on_retry) ∧
    a.to_dict.lookup "retries" = some (AttrValue.int a.retries) := by
  exact ⟨rfl, rfl, rfl, rfl, rfl, rfl, rfl, rfl, rfl, rfl⟩

/-- C6 (witness): the round-trip at the concrete valid instance
`sampleArgs`. -/
theorem to_dict_round_trips_every_field_witness :
    sampleArgs.to_dict.map Prod.fst =
      ["owner", "start_date", "email", "depends_on_past", "retry_delay",
       "email_on_failure", "email_on_retry", "retries"] :=
  (to_dict_round_trips_every_field "a@b.com" (some "2020-01-01") [] false "30m"
    true true 2 sampleArgs rfl).1

/-- Wiring every task succeeds when each individual wiring call does, and
the invocation trace is exactly the task list in order. -/
lemma wireTasks_all_ok (wire : Task → Except DagError Unit) (l : List Task)
    (h : ∀ t ∈ l, wire t = Except.ok ()) : wireTasks wire l = (l, Except.ok ()) := by
  induction l with
  | nil => rfl
  | cons t ts ih =>
    have ht : wire t = Except.ok () := h t (List.mem_cons_self t ts)
    have ihh := ih (fun u hu => h u (List.mem_cons_of_mem t hu))
    simp [wireTasks, ht, ihh]

/-- Wiring stops at the first failing task: the trace is the successful
first part followed by the failing task, and the error is returned. -/
lemma wireTasks_first_error (wire : Task → Except DagError Unit) (pre : List Task)
    (t : Task) (post : List Task) (e : DagError)
    (hpre : ∀ u ∈ pre, wire u = Except.ok ()) (ht : wire t = Except.error e) :
    wireTasks wire (pre ++ t :: post) = (pre ++ [t], Except.error e) := by
  induction pre with
  | nil => simp [wireTasks, ht]
  | cons u us ih =>
    have hu : wire u = Except.ok () := hpre u (List.mem_cons_self u us)
    have ihh := ih (fun v hv => hpre v (List.mem_cons_of_mem u hv))
    simp [wireTasks, hu, ihh]

/-- C7: during render every task's dependency-wiring step runs in sequence
order before the template is rendered; when all succeed the rendered text
is returned, and when some task's wiring fails the failure propagates with
no text returned, the later tasks never being wired. -/
theorem to_airflow_dag_wiring (wire : Task → Except DagError Unit)
    (render : Dag → String) (d : Dag) :
    ((∀ t ∈ d.tasks, wire t = Except.ok ()) →
      d.to_airflow_dag wire render = (d.tasks, Except.ok (render d))) ∧
    (∀ pre t post e, d.tasks = pre ++ t :: post →
      (∀ u ∈ pre, wire u = Except.ok ()) → wire t = Except.error e →
      d.to_airflow_dag wire render = (pre ++ [t], Except.error e)) := by
  constructor
  · intro h
    unfold Dag.to_airflow_dag
    rw [wireTasks_all_ok wire d.tasks h]
  · intro pre t post e hsplit hpre ht
    unfold Dag.to_airflow_dag
    rw [hsplit, wireTasks_first_error wire pre t post e hpre ht]

/-- C7 (witness): on the concrete DAG with tasks `[task_a, task_b]`, an
always-successful wiring yields the rendered text with both tasks wired in
order, and a wiring failing at `task_b` aborts with the error after wiring
`task_a` then `task_b`. -/
theorem to_airflow_dag_wiring_witness :
    dagAB.to_airflow_dag (fun _ => Except.ok ()) (fun _ => "out") =
      ([taskA, taskB], Except.ok "out") ∧
    dagAB.to_airflow_dag wireFail (fun _ => "out") =
      ([taskA, taskB], Except.error (DagError.valueError "wiring failed")) := by
  constructor
  · exact (to_airflow_dag_wiring (fun _ => Except.ok ()) (fun _ => "out") dagAB).1
      (fun t _ => rfl)
  · exact (to_airflow_dag_wiring wireFail (fun _ => "out") dagAB).2
      [taskA] taskB [] (DagError.valueError "wiring failed") rfl
      (fun u hu => by
        rw [List.mem_singleton] at hu
        subst hu
        rfl)
      rfl

/-- C8: given a valid name, default args and no tasks, DAG construction
succeeds exactly when the schedule validator accepts the interval; the
validator accepts each named preset, a well-formed 5-field cron string and
the duration literal `1d4h45m`, and rejects `45m1d` (wrong unit order),
`2d2d` (repeated unit) and the empty string. -/
theorem schedule_interval_acceptance (s : String) :
    exOk (mkDag "bqetl_test" s sampleArgs []) = is_schedule_interval s ∧
    is_schedule_interval "@once" = true ∧
    is_schedule_interval "@hourly" = true ∧
    is_schedule_interval "@daily" = true ∧
    is_schedule_interval "@weekly" = true ∧
    is_schedule_interval "@monthly" = true ∧
    is_schedule_interval "@yearly" = true ∧
    is_schedule_interval "0 15 * * *" = true ∧
    is_schedule_interval "1d4h45m" = true ∧
    is_schedule_interval "45m1d" = false ∧
    is_schedule_interval "2d2d" = false ∧
    is_schedule_interval "" = false := by
  refine ⟨?_, rfl, rfl, rfl, rfl, rfl, rfl, rfl, rfl, rfl, rfl, rfl⟩
  have hname : is_valid_dag_name "bqetl_test" = true := rfl
  have htasks : validateTasks [] = Except.ok () := rfl
  simp only [mkDag, hname, Bool.not_true, htasks]
  rcases Bool.eq_false_or_eq_true (is_schedule_interval s) with h | h <;> simp [h, exOk]

/-- Construction only ever returns a DAG carrying the name it was given. -/
lemma mkDag_ok_name (nm si : String) (da : DagDefaultArgs) (ts : List Task)
    (dag : Dag) (h : mkDag nm si da ts = Except.ok dag) : dag.name = nm := by
  unfold mkDag at h
  split at h
  · simp at h
  · split at h
    · simp at h
    · split at h
      · simp at h
      · cases h
        rfl

/-- cattr structuring only ever returns a DAG carrying the supplied name. -/
lemma structureDag_ok_name (nm : String) (body : RawDagBody) (dag : Dag)
    (h : structureDag nm body = Except.ok dag) : dag.name = nm := by
  unfold structureDag at h
  split at h
  · simp at h
  · split at h
    · simp at h
    · split at h
      · simp at h
      · exact mkDag_ok_name _ _ _ _ _ h

/-- C9: in `from_dict`, a `name` entry inside the single entry's body
overrides the top-level key: whenever parsing succeeds, the resulting DAG's
name is the body's `name` value, not the key. -/
theorem from_dict_body_name_overrides (key nm : String) (body : RawDagBody)
    (dag : Dag) (h1 : body.name = some nm)
    (h2 : Dag.from_dict [(key, body)] = Except.ok dag) : dag.name = nm := by
  have h2' : (match structureDag (body.name.getD key) body with
      | Except.error (DagError.typeError msg) => Except.error (DagError.parseError msg)
      | r => r) = Except.ok dag := h2
  rw [h1] at h2'
  split at h2'
  · simp at h2'
  · exact structureDag_ok_name _ _ _ h2'

/-- C9 (witness): the key `bqetl_outer` is overridden by the body's own
name `bqetl_inner` in the parsed DAG. -/
theorem from_dict_body_name_overrides_witness : dagInner.name = "bqetl_inner" :=
  from_dict_body_name_overrides "bqetl_outer" "bqetl_inner" overrideBody dagInner rfl rfl

end BqEtl
